import Mathlib

/-!
Shallow embedding of the MCP gateway entrypoint (`mcp-server/index.js`) of the
`ai-foundry-mcp-gw` repository: the connection registry, the SSE keep-alive
and close handlers of `GET /mcp/sse`, the JSON-RPC dispatch of
`POST /mcp/message`, and the inline tool engine (the `switch` over tool names
inside the `tools/call` branch).

Modelling conventions:
* JavaScript strings are `List Char`; the JS operations used by the source
  (`toLowerCase`, `indexOf`, `includes`, `substring`, template literals,
  property access with a possibly-`undefined` key) are defined below with
  JS semantics.
* `JSON.stringify` of a structured payload is abstracted by keeping the
  payload structured (`TextPayload`); plain-text error messages are kept as
  the literal strings the source builds.
* Asynchronous I/O is modelled by explicit parameters: whether a write to the
  registered SSE stream throws (`sseFail`), and the stream's `writableEnded`
  flag, both fixed for the duration of one request (the source has no
  suspension point between reading them and acting on them).
* `uuidv4()` is modelled by an explicit `fresh` argument.
-/

namespace AiFoundryGw

/-- JavaScript strings, as their character sequences. -/
abbrev Str := List Char

/-- Does `hay` start with `pat`? (helper for `jsIndexOf`). -/
def jsStartsWith : Str → Str → Bool
  | _, [] => true
  | [], _ :: _ => false
  | c :: cs, p :: ps => c == p && jsStartsWith cs ps

/-- Scan for the first occurrence of `pat`, carrying the current index `k`. -/
def indexOfAux (pat : Str) : Str → Nat → Option Nat
  | [], k => if jsStartsWith [] pat then some k else none
  | c :: t, k => if jsStartsWith (c :: t) pat then some k else indexOfAux pat t (k + 1)

/-- JS `String.prototype.indexOf`: first index of `pat` in `hay`, `-1` if absent. -/
def jsIndexOf (hay pat : Str) : Int :=
  match indexOfAux pat hay 0 with
  | some n => (n : Int)
  | none => -1

/-- JS `String.prototype.includes`. -/
def jsIncludes (hay pat : Str) : Bool :=
  (indexOfAux pat hay 0).isSome

/-- JS `String.prototype.toLowerCase` (the source only feeds it ASCII). -/
def jsToLower (s : Str) : Str := s.map Char.toLower

/-- JS `String.prototype.substring`: clamps both positions into `[0, length]`
and swaps them when out of order. -/
def jsSubstring (s : Str) (start stop : Int) : Str :=
  let lo := max 0 (min start (s.length : Int))
  let hi := max 0 (min stop (s.length : Int))
  let a := (min lo hi).toNat
  let b := (max lo hi).toNat
  (s.drop a).take (b - a)

/-- Coercion of a possibly-`undefined` JS string to a string, as performed by
template literals and by property access with a computed key: `undefined`
becomes the string `"undefined"`. -/
def jsStr : Option Str → Str
  | some s => s
  | none => "undefined".data

/-- The defaulting of a missing `accept` header to the empty string
(`req.headers.accept` or-else empty). -/
def jsOrEmpty : Option Str → Str
  | some s => s
  | none => []

/-! ## Session / document store (`const sessions = {}`) -/

/-- A document: `{ id, title, text }`. -/
structure Doc where
  id : Str
  title : Str
  text : Str
deriving DecidableEq

/-- A session: `{ docs: [], history: [] }`; `history` holds
`{ query, response }` pairs pushed by the (out-of-core) query endpoint. -/
structure Session where
  docs : List Doc
  history : List (Str × Str)
deriving DecidableEq

/-- The in-memory session store, a JS object used as a string-keyed map;
entries keep insertion order (`Object.entries` iteration order). -/
abbrev Store := List (Str × Session)

/-- Property read `sessions[k]`. -/
def lookupStore : Store → Str → Option Session
  | [], _ => none
  | (k', v) :: rest, k => if k' == k then some v else lookupStore rest k

/-- Property write `sessions[k] = v`: overwriting keeps the original insertion
position, a fresh key is appended. -/
def storeSet : Store → Str → Session → Store
  | [], k, v => [(k, v)]
  | (k', v') :: rest, k, v =>
      if k' == k then (k, v) :: rest else (k', v') :: storeSet rest k v

/-! ## `search_documents` (source lines 363-377) -/

/-- One entry of the `results` array built by `search_documents`. -/
structure SearchResult where
  sessionId : Str
  docId : Str
  title : Str
  snippet : Str
deriving DecidableEq

/-- `` `...${doc.text.substring(Math.max(0, index - 50), Math.min(doc.text.length, index + 50))}...` ``
where `index = doc.text.toLowerCase().indexOf(searchLower)`. -/
def snippetOf (text searchLower : Str) : Str :=
  let index := jsIndexOf (jsToLower text) searchLower
  "...".data
    ++ jsSubstring text (max 0 (index - 50)) (min (text.length : Int) (index + 50))
    ++ "...".data

/-- `args.sessionId ? { [args.sessionId]: sessions[args.sessionId] } : sessions`:
JS truthiness makes both `undefined` and the empty string select the whole
store. -/
def sessionsToSearch : Store → Option Str → List (Str × Option Session)
  | store, some sid =>
      if sid.isEmpty then store.map (fun p => (p.1, some p.2))
      else [(sid, lookupStore store sid)]
  | store, none => store.map (fun p => (p.1, some p.2))

/-- The match test of the inner loop:
`doc.text.toLowerCase().includes(searchLower) || doc.title.toLowerCase().includes(searchLower)`. -/
def docMatches (searchLower : Str) (d : Doc) : Bool :=
  jsIncludes (jsToLower d.text) searchLower || jsIncludes (jsToLower d.title) searchLower

/-- The result accumulation of `search_documents`: sessions in iteration
order, `if (!session) continue`, one result pushed per matching document. -/
def searchDocs (store : Store) (query : Str) (sessionId : Option Str) : List SearchResult :=
  (sessionsToSearch store sessionId).flatMap (fun entry =>
    match entry.2 with
    | none => []
    | some session =>
        session.docs.filterMap (fun d =>
          if docMatches (jsToLower query) d then
            some { sessionId := entry.1, docId := d.id, title := d.title,
                   snippet := snippetOf d.text (jsToLower query) }
          else none))

/-! ## Tool invocation (the `switch (name)` inside `tools/call`) -/

/-- `message.params.arguments`, with each field possibly absent. A missing
`arguments` object is modelled as the all-absent record (the only difference
with JS — a thrown `TypeError` on field access — is the wording of the
resulting tool-fault message, which no modelled behaviour depends on). -/
structure ToolArgs where
  sessionId : Option Str := none
  docId : Option Str := none
  query : Option Str := none
  title : Option Str := none
  text : Option Str := none
deriving DecidableEq

/-- The structured content of the single `{ type: 'text', text: ... }` block a
tool produces. `JSON.stringify` payloads are kept structured; `errorText`
carries the literal failure string built by the `catch (toolError)` block. -/
inductive TextPayload
  | sessionCreated (sessionId : Str)
  | documentList (sessionId : Str) (documentCount : Nat) (documents : List (Str × Str × Nat))
  | documentContent (id : Str) (title : Str) (text : Str)
  | searchOutput (query : Str) (resultCount : Nat) (results : List SearchResult)
  | uploadAck (docId : Str) (title : Str) (sessionId : Str)
  | errorText (msg : Str)
deriving DecidableEq

/-- One content block `{ type, text }`. -/
structure ContentBlock where
  type : Str
  text : TextPayload
deriving DecidableEq

/-- A tool result `{ content, isError }`. -/
structure ToolResult where
  content : List ContentBlock
  isError : Bool
deriving DecidableEq

/-- A successful single-text-block result. -/
def okResult (p : TextPayload) : ToolResult :=
  { content := [{ type := "text".data, text := p }], isError := false }

/-- The `switch (name)` over tool names (source lines 309-389): each case
either produces a result and the updated store, or throws (`Except.error`
carries `toolError.message`). All throws happen before any store mutation. -/
def runTool (fresh : Str) (store : Store) (name : Str) (args : ToolArgs) :
    Except Str (ToolResult × Store) :=
  if name == "create_session".data then
    let sid := fresh
    let store1 := storeSet store sid { docs := [], history := [] }
    .ok (okResult (.sessionCreated sid), store1)
  else if name == "list_documents".data then
    match lookupStore store (jsStr args.sessionId) with
    | none => .error ("Session not found: ".data ++ jsStr args.sessionId)
    | some session =>
        .ok (okResult (.documentList (jsStr args.sessionId) session.docs.length
          (session.docs.map (fun d => (d.id, d.title, d.text.length)))), store)
  else if name == "get_document".data then
    match lookupStore store (jsStr args.sessionId) with
    | none => .error ("Session not found: ".data ++ jsStr args.sessionId)
    | some session =>
        match session.docs.find? (fun d => d.id == jsStr args.docId) with
        | none => .error ("Document not found: ".data ++ jsStr args.docId)
        | some doc => .ok (okResult (.documentContent doc.id doc.title doc.text), store)
  else if name == "search_documents".data then
    match args.query with
    | none => .error "Cannot read properties of undefined (reading toLowerCase)".data
    | some q =>
        let results := searchDocs store q args.sessionId
        .ok (okResult (.searchOutput q results.length results), store)
  else if name == "upload_document".data then
    match lookupStore store (jsStr args.sessionId) with
    | none => .error "Session not found".data
    | some session =>
        let docId := fresh
        let doc : Doc := { id := docId, title := jsStr args.title, text := jsStr args.text }
        let store1 := storeSet store (jsStr args.sessionId) { session with docs := session.docs ++ [doc] }
        .ok (okResult (.uploadAck docId (jsStr args.title) (jsStr args.sessionId)), store1)
  else
    .error ("Unknown tool: ".data ++ name)

/-- The tool-fault result built by `catch (toolError)` (source lines 422-430). -/
def toolFault (emsg : Str) : ToolResult :=
  { content := [{ type := "text".data, text := .errorText ("Tool execution failed: ".data ++ emsg) }],
    isError := true }

/-- Tool execution with its call-site `catch`: a throw is converted into an
`isError: true` result and the store is left as it was. -/
def callTool (fresh : Str) (store : Store) (name : Str) (args : ToolArgs) :
    ToolResult × Store :=
  match runTool fresh store name args with
  | .ok (r, store1) => (r, store1)
  | .error emsg => (toolFault emsg, store)

/-! ## JSON-RPC envelopes and the connection registry -/

/-- A JSON-RPC `id` value (the source echoes it verbatim). -/
inductive JVal
  | num (n : Int)
  | str (s : Str)
deriving DecidableEq

/-- A JSON-RPC `error` member `{ code, message }` (the 404 body's extra
`debug` member is carried separately by the outcome constructor). -/
structure JsonError where
  code : Int
  message : Str
deriving DecidableEq

/-- One entry of the static tool catalogue returned by `tools/list`:
name, description, schema properties (property name and type), required
property names. -/
structure ToolDef where
  name : Str
  description : Str
  properties : List (Str × Str)
  required : List Str
deriving DecidableEq

/-- The `result` member of an outbound envelope. `capabilities` of the
`initResult` is the constant `{ tools: {}, resources: {} }` and is not
repeated here. -/
inductive RpcPayload
  | initResult (protocolVersion : Str) (serverName : Str) (serverVersion : Str)
  | toolsList (tools : List ToolDef)
  | toolOutput (r : ToolResult)
deriving DecidableEq

/-- An outbound JSON-RPC envelope `{ jsonrpc, result?, error?, id }`. -/
structure RpcResponse where
  jsonrpc : Str
  result : Option RpcPayload
  error : Option JsonError
  id : Option JVal
deriving DecidableEq

/-- `message.params` of a `tools/call` request. -/
structure RpcParams where
  name : Option Str := none
  arguments : ToolArgs := {}
deriving DecidableEq

/-- An inbound envelope (`req.body`), each member possibly absent — the
source performs no shape validation. -/
structure RpcMessage where
  method : Option Str := none
  id : Option JVal := none
  params : Option RpcParams := none
deriving DecidableEq

/-- A registered connection: the source stores `{ server, res }`; the MCP
server object is never used by the POST handler, so only the observable
state of `res` (its `writableEnded` flag) is kept. -/
structure Connection where
  writableEnded : Bool
deriving DecidableEq

/-- `const mcpConnections = new Map()`. -/
abbrev Registry := List (Str × Connection)

/-- `mcpConnections.get(req.query.sessionId)`; `Map.get` of `undefined`
finds nothing. -/
def lookupConn (reg : Registry) (k : Option Str) : Option Connection :=
  match k with
  | none => none
  | some key =>
      match reg.find? (fun p => p.1 == key) with
      | some p => some p.2
      | none => none

/-- `mcpConnections.delete(connectionId)`. -/
def removeConn (reg : Registry) (connId : Str) : Registry :=
  reg.filter (fun p => !(p.1 == connId))

/-- The fixed `code` of the 404 connection-not-found fault (line 188). -/
def connectionNotFoundCode : Int := -32001

/-- The fixed `code` of the method-not-found fault (line 449). -/
def methodNotFoundCode : Int := -32601

/-- The fixed `code` of the outer-catch internal fault (line 464). -/
def internalErrorCode : Int := -32603

/-- The `initialize` response (lines 204-212). -/
def initResponse (id : Option JVal) : RpcResponse :=
  { jsonrpc := "2.0".data,
    result := some (.initResult "2024-11-05".data "ai-foundry-mcp-gateway".data "1.0.0".data),
    error := none, id := id }

/-- The static tool catalogue (lines 232-278). -/
def toolCatalogue : List ToolDef :=
  [ { name := "create_session".data, description := "Create a new document session".data,
      properties := [], required := [] },
    { name := "list_documents".data, description := "List all documents in a session".data,
      properties := [("sessionId".data, "string".data)], required := ["sessionId".data] },
    { name := "get_document".data, description := "Get document content".data,
      properties := [("sessionId".data, "string".data), ("docId".data, "string".data)],
      required := ["sessionId".data, "docId".data] },
    { name := "search_documents".data, description := "Search documents".data,
      properties := [("query".data, "string".data), ("sessionId".data, "string".data)],
      required := ["query".data] },
    { name := "upload_document".data, description := "Upload document".data,
      properties := [("sessionId".data, "string".data), ("title".data, "string".data),
                     ("text".data, "string".data)],
      required := ["sessionId".data, "title".data, "text".data] } ]

/-- The `tools/list` response (lines 280-284). -/
def toolsListResponse (id : Option JVal) : RpcResponse :=
  { jsonrpc := "2.0".data, result := some (.toolsList toolCatalogue), error := none, id := id }

/-- The method-not-found error envelope (line 449); a missing method name
renders as `undefined` in the template literal. -/
def methodNotFoundResponse (method : Option Str) (id : Option JVal) : RpcResponse :=
  { jsonrpc := "2.0".data, result := none,
    error := some { code := methodNotFoundCode, message := "Method not found: ".data ++ jsStr method },
    id := id }

/-- The envelope `{ jsonrpc, result, id }` wrapping a tool result. -/
def toolResponse (r : ToolResult) (id : Option JVal) : RpcResponse :=
  { jsonrpc := "2.0".data, result := some (.toolOutput r), error := none, id := id }

/-- The `{ code: -32603, message: error.message }` member built by the outer
`catch`. -/
def internalErrorOf (emsg : Str) : JsonError :=
  { code := internalErrorCode, message := emsg }

/-- The message of the `TypeError` thrown by destructuring an absent
`message.params`. -/
def destructureFailMsg : Str :=
  "Cannot destructure property name of message.params as it is undefined".data

/-- The error member of the 404 connection-not-found body (lines 185-193). -/
def connNotFoundErr : JsonError :=
  { code := connectionNotFoundCode, message := "Connection not found".data }

/-- What the POST handler sends back on the POST response itself. -/
inductive Inline
  /-- `res.status(404).json(...)` with the fixed connection-not-found error,
  the echoed body id, and the debug list of live connection ids. -/
  | connNotFound (err : JsonError) (id : Option JVal) (availableIds : List Str)
  /-- `res.json(response)`: the full JSON-RPC envelope inline. -/
  | fullJson (resp : RpcResponse)
  /-- `res.status(202).send()`: empty acceptance. -/
  | accepted
  /-- `res.status(200).json({ acknowledged: true })`. -/
  | ackJson
  /-- `res.json({ received: true })`. -/
  | receivedJson
  /-- SSE headers set on the POST response itself, one `event: message`
  frame written there, then `res.end()`. -/
  | sseOnPost (resp : RpcResponse)
  /-- `res.status(500).json(...)` from the outer `catch`. -/
  | internalError (err : JsonError) (id : Option JVal)
deriving DecidableEq

/-- Everything observable about one `POST /mcp/message` request. -/
structure Outcome where
  /-- What was sent on the POST response. -/
  inline : Inline
  /-- The `event: message` frames written to the registered SSE stream of the
  resolved connection, in order. Only successful writes are recorded. -/
  sseWrites : List RpcResponse
  /-- The session store after the request. -/
  store : Store
  /-- The connection registry after the request (the POST handler never
  mutates `mcpConnections`). -/
  registry : Registry
deriving DecidableEq

/-- The `tools/call` branch once `message.params` destructured successfully
(source lines 298-446): run the tool; on a throw, build the `isError` result
and deliver it on the POST response (as an SSE-framed body when the client
accepts streaming, as JSON otherwise); on success, re-look-up the connection
and try the registered stream first, falling back to an inline JSON response
when the stream is absent, ended, or the write throws. -/
def toolsCallOutcome (reg : Registry) (store : Store) (connectionId : Option Str)
    (msgId : Option JVal) (params : RpcParams) (wantsSSE : Bool) (fresh : Str)
    (sseFail : Option Str) : Outcome :=
  match runTool fresh store (jsStr params.name) params.arguments with
  | .error emsg =>
      let errorResponse := toolResponse (toolFault emsg) msgId
      { inline := if wantsSSE then .sseOnPost errorResponse else .fullJson errorResponse,
        sseWrites := [], store := store, registry := reg }
  | .ok (result, store1) =>
      let response := toolResponse result msgId
      match lookupConn reg connectionId with
      | some sseConn =>
          if !sseConn.writableEnded then
            match sseFail with
            | none =>
                { inline := .ackJson, sseWrites := [response],
                  store := store1, registry := reg }
            | some _ =>
                { inline := .fullJson response, sseWrites := [],
                  store := store1, registry := reg }
          else
            { inline := .fullJson response, sseWrites := [],
              store := store1, registry := reg }
      | none =>
          { inline := .fullJson response, sseWrites := [],
            store := store1, registry := reg }

/-- The `POST /mcp/message` handler (source lines 164-466).

`connectionId` is `req.query.sessionId`; `accept` is the raw `accept` header;
`fresh` is the value `uuidv4()` would produce inside the tool switch;
`sseFail` is `none` when writes to the registered SSE stream succeed, and
`some e` when such a write throws an error with message `e`. -/
def handleMessage (reg : Registry) (store : Store) (connectionId : Option Str)
    (msg : RpcMessage) (accept : Option Str) (fresh : Str) (sseFail : Option Str) :
    Outcome :=
  match lookupConn reg connectionId with
  | none =>
      { inline := .connNotFound connNotFoundErr msg.id (reg.map (fun p => p.1)),
        sseWrites := [], store := store, registry := reg }
  | some _ =>
      let wantsSSE := jsIncludes (jsOrEmpty accept) "text/event-stream".data
      if msg.method == some "initialize".data then
        -- `connection.res.write(...)` is unguarded: a throw reaches the outer catch
        match sseFail with
        | some emsg =>
            { inline := .internalError (internalErrorOf emsg) msg.id,
              sseWrites := [], store := store, registry := reg }
        | none =>
            { inline := if wantsSSE then .accepted else .fullJson (initResponse msg.id),
              sseWrites := [initResponse msg.id], store := store, registry := reg }
      else if msg.method == some "tools/list".data then
        match sseFail with
        | some emsg =>
            { inline := .internalError (internalErrorOf emsg) msg.id,
              sseWrites := [], store := store, registry := reg }
        | none =>
            { inline := if wantsSSE then .accepted else .fullJson (toolsListResponse msg.id),
              sseWrites := [toolsListResponse msg.id], store := store, registry := reg }
      else if msg.method == some "tools/call".data then
        match msg.params with
        | none =>
            -- `const { name, arguments: args } = message.params` throws on undefined,
            -- outside the inner try: handled by the outer catch
            { inline := .internalError (internalErrorOf destructureFailMsg) msg.id,
              sseWrites := [], store := store, registry := reg }
        | some params =>
            toolsCallOutcome reg store connectionId msg.id params wantsSSE fresh sseFail
      else
        let errorResponse := methodNotFoundResponse msg.method msg.id
        if wantsSSE then
          { inline := .sseOnPost errorResponse, sseWrites := [], store := store, registry := reg }
        else
          -- `connection.res.write(...)` unguarded, then `res.json({ received: true })`
          match sseFail with
          | some emsg =>
              { inline := .internalError (internalErrorOf emsg) msg.id,
                sseWrites := [], store := store, registry := reg }
          | none =>
              { inline := .receivedJson, sseWrites := [errorResponse],
                store := store, registry := reg }

/-! ## SSE stream lifecycle (`GET /mcp/sse`, source lines 104-162) -/

/-- Observable effects of one firing of the 30-second keep-alive timer. -/
structure KeepAliveTick where
  /-- Was `res.write` invoked? -/
  writeAttempted : Bool
  /-- Was `clearInterval(keepAliveInterval)` called? -/
  intervalCancelled : Bool
  /-- The registry afterwards. -/
  registry : Registry
deriving DecidableEq

/-- One firing of the keep-alive timer (source lines 117-123):
`res.write` is invoked unconditionally inside `try`; the `catch` only clears
the interval. The registry is neither consulted nor modified, and the
stream's state is not checked before the write. `writeThrows` says whether
the write throws. -/
def keepAliveTick (reg : Registry) (writeThrows : Bool) : KeepAliveTick :=
  { writeAttempted := true, intervalCancelled := writeThrows, registry := reg }

/-- Observable effects of the `close`/`error` listeners on the SSE response. -/
structure CloseResult where
  intervalCancelled : Bool
  registry : Registry
deriving DecidableEq

/-- The `close` listener (lines 143-147) and the `error` listener
(lines 149-153) both run `clearInterval` and `mcpConnections.delete`. -/
def onStreamClose (reg : Registry) (connId : Str) : CloseResult :=
  { intervalCancelled := true, registry := removeConn reg connId }

/-! ## Fixtures used by concrete instances -/

/-- A connection whose stream is still writable. -/
def liveConn : Connection := { writableEnded := false }

/-- A connection whose stream has ended. -/
def endedConn : Connection := { writableEnded := true }

/-- A registry holding one live connection `c1`. -/
def liveReg : Registry := [("c1".data, liveConn)]

/-! ## Claim C1 -/

/-- Claim C1: a POST to `/mcp/message` whose `sessionId` query parameter
matches no registered live connection is answered with the HTTP 404 JSON-RPC
error carrying the fixed code `-32001` — distinct from the method-not-found
and internal-fault codes — and the request body's `id` echoed back; nothing
is written to any stream, no tool runs, and the store is unchanged. -/
theorem connection_not_found_rejection (reg : Registry) (store : Store)
    (cid : Option Str) (msg : RpcMessage) (accept : Option Str) (fresh : Str)
    (sseFail : Option Str) (h : lookupConn reg cid = none) :
    handleMessage reg store cid msg accept fresh sseFail =
      { inline := .connNotFound connNotFoundErr msg.id (reg.map (fun p => p.1)),
        sseWrites := [], store := store, registry := reg }
    ∧ connNotFoundErr.code = connectionNotFoundCode
    ∧ connectionNotFoundCode ≠ methodNotFoundCode
    ∧ connectionNotFoundCode ≠ internalErrorCode := by
  refine ⟨?_, by decide, by decide, by decide⟩
  unfold handleMessage
  rw [h]

/-- Concrete instance of `connection_not_found_rejection`: the registry holds
only `c1`, the POST names `nope`. -/
theorem connection_not_found_rejection_witness :
    lookupConn liveReg (some "nope".data) = none ∧
    (handleMessage liveReg [] (some "nope".data) { id := some (.num 3) } none "f".data none =
      { inline := .connNotFound connNotFoundErr (some (.num 3)) (liveReg.map (fun p => p.1)),
        sseWrites := [], store := [], registry := liveReg }
    ∧ connNotFoundErr.code = connectionNotFoundCode
    ∧ connectionNotFoundCode ≠ methodNotFoundCode
    ∧ connectionNotFoundCode ≠ internalErrorCode) :=
  ⟨by decide,
   connection_not_found_rejection liveReg [] (some "nope".data) { id := some (.num 3) }
     none "f".data none (by decide)⟩

/-! ## Claim C2 -/

/-- Claim C2: when the tool named in a routed `tools/call` fails (unknown
tool, missing session, missing document), the client receives a successful
JSON-RPC response — the `error` member is absent — whose `result` has
`isError: true` and whose text content is the failure description; in
particular an unknown tool name always fails with `Unknown tool: <name>`,
whose text mentions that name. -/
theorem tool_failure_is_isError_result (reg : Registry) (store : Store)
    (cid : Option Str) (conn : Connection) (msg : RpcMessage) (params : RpcParams)
    (accept : Option Str) (fresh : Str) (sseFail : Option Str) (emsg : Str)
    (hconn : lookupConn reg cid = some conn)
    (hmethod : msg.method = some "tools/call".data)
    (hparams : msg.params = some params)
    (hfail : runTool fresh store (jsStr params.name) params.arguments = .error emsg) :
    (handleMessage reg store cid msg accept fresh sseFail =
      { inline := if jsIncludes (jsOrEmpty accept) "text/event-stream".data
                  then .sseOnPost (toolResponse (toolFault emsg) msg.id)
                  else .fullJson (toolResponse (toolFault emsg) msg.id),
        sseWrites := [], store := store, registry := reg })
    ∧ (toolResponse (toolFault emsg) msg.id).error = none
    ∧ (toolResponse (toolFault emsg) msg.id).result = some (.toolOutput (toolFault emsg))
    ∧ (toolFault emsg).isError = true
    ∧ (toolFault emsg).content =
        [{ type := "text".data, text := .errorText ("Tool execution failed: ".data ++ emsg) }]
    ∧ (∀ (name : Str) (args : ToolArgs) (st : Store) (f : Str),
        name ≠ "create_session".data → name ≠ "list_documents".data →
        name ≠ "get_document".data → name ≠ "search_documents".data →
        name ≠ "upload_document".data →
        runTool f st name args = .error ("Unknown tool: ".data ++ name)
        ∧ ∃ pre post,
            "Tool execution failed: ".data ++ ("Unknown tool: ".data ++ name)
              = pre ++ name ++ post) := by
  obtain ⟨method, mid, mparams⟩ := msg
  simp only at hmethod hparams
  subst hmethod
  subst hparams
  refine ⟨?_, rfl, rfl, rfl, rfl, ?_⟩
  · unfold handleMessage
    rw [hconn]
    show toolsCallOutcome reg store cid mid params
        (jsIncludes (jsOrEmpty accept) "text/event-stream".data) fresh sseFail = _
    unfold toolsCallOutcome
    rw [hfail]
  · intro name args st f h1 h2 h3 h4 h5
    have e1 : (name == "create_session".data) = false := beq_eq_false_iff_ne.mpr h1
    have e2 : (name == "list_documents".data) = false := beq_eq_false_iff_ne.mpr h2
    have e3 : (name == "get_document".data) = false := beq_eq_false_iff_ne.mpr h3
    have e4 : (name == "search_documents".data) = false := beq_eq_false_iff_ne.mpr h4
    have e5 : (name == "upload_document".data) = false := beq_eq_false_iff_ne.mpr h5
    refine ⟨by simp [runTool, e1, e2, e3, e4, e5], ?_⟩
    refine ⟨"Tool execution failed: Unknown tool: ".data, [], ?_⟩
    rw [List.append_nil, ← List.append_assoc]
    have hcat : "Tool execution failed: ".data ++ "Unknown tool: ".data
        = "Tool execution failed: Unknown tool: ".data := by decide
    rw [hcat]

/-- Concrete instance of `tool_failure_is_isError_result`: calling the
unknown tool `nope_tool` over a live connection with a plain-JSON client. -/
theorem tool_failure_is_isError_result_witness :
    lookupConn liveReg (some "c1".data) = some liveConn ∧
    (({ method := some "tools/call".data, id := some (.num 1),
        params := some { name := some "nope_tool".data } } : RpcMessage).method
      = some "tools/call".data) ∧
    runTool "f".data [] (jsStr (some "nope_tool".data)) {} = .error "Unknown tool: nope_tool".data ∧
    ((handleMessage liveReg [] (some "c1".data)
        { method := some "tools/call".data, id := some (.num 1),
          params := some { name := some "nope_tool".data } } none "f".data none =
      { inline := if jsIncludes (jsOrEmpty none) "text/event-stream".data
                  then .sseOnPost (toolResponse (toolFault "Unknown tool: nope_tool".data) (some (.num 1)))
                  else .fullJson (toolResponse (toolFault "Unknown tool: nope_tool".data) (some (.num 1))),
        sseWrites := [], store := [], registry := liveReg })
    ∧ (toolResponse (toolFault "Unknown tool: nope_tool".data) (some (.num 1))).error = none
    ∧ (toolResponse (toolFault "Unknown tool: nope_tool".data) (some (.num 1))).result
        = some (.toolOutput (toolFault "Unknown tool: nope_tool".data))
    ∧ (toolFault "Unknown tool: nope_tool".data).isError = true
    ∧ (toolFault "Unknown tool: nope_tool".data).content =
        [{ type := "text".data,
           text := .errorText ("Tool execution failed: ".data ++ "Unknown tool: nope_tool".data) }]
    ∧ (∀ (name : Str) (args : ToolArgs) (st : Store) (f : Str),
        name ≠ "create_session".data → name ≠ "list_documents".data →
        name ≠ "get_document".data → name ≠ "search_documents".data →
        name ≠ "upload_document".data →
        runTool f st name args = .error ("Unknown tool: ".data ++ name)
        ∧ ∃ pre post,
            "Tool execution failed: ".data ++ ("Unknown tool: ".data ++ name)
              = pre ++ name ++ post)) :=
  ⟨by decide, rfl, rfl,
   tool_failure_is_isError_result liveReg [] (some "c1".data) liveConn
     { method := some "tools/call".data, id := some (.num 1),
       params := some { name := some "nope_tool".data } }
     { name := some "nope_tool".data } none "f".data none "Unknown tool: nope_tool".data
     (by decide) rfl rfl rfl⟩

/-! ## Helper lemmas shared by several claims -/

/-- A registry holding one connection `c1` whose stream has ended. -/
def endedReg : Registry := [("c1".data, endedConn)]

/-- Dispatch lemma: a routed `tools/call` reduces to `toolsCallOutcome`. -/
theorem handleMessage_toolsCall (reg : Registry) (store : Store) (cid : Option Str)
    (conn : Connection) (mid : Option JVal) (params : RpcParams) (accept : Option Str)
    (fresh : Str) (sseFail : Option Str) (hconn : lookupConn reg cid = some conn) :
    handleMessage reg store cid { method := some "tools/call".data, id := mid, params := some params }
        accept fresh sseFail
      = toolsCallOutcome reg store cid mid params
          (jsIncludes (jsOrEmpty accept) "text/event-stream".data) fresh sseFail := by
  unfold handleMessage
  rw [hconn]
  rfl

/-- A successful tool execution with a live, writable stream and a
successful write: acknowledged inline, payload on the stream. -/
theorem toolsCallOutcome_ok_live (reg : Registry) (store : Store) (cid : Option Str)
    (conn : Connection) (mid : Option JVal) (params : RpcParams) (wantsSSE : Bool)
    (fresh : Str) (result : ToolResult) (store1 : Store)
    (hconn : lookupConn reg cid = some conn) (hw : conn.writableEnded = false)
    (hok : runTool fresh store (jsStr params.name) params.arguments = .ok (result, store1)) :
    toolsCallOutcome reg store cid mid params wantsSSE fresh none =
      { inline := .ackJson, sseWrites := [toolResponse result mid],
        store := store1, registry := reg } := by
  unfold toolsCallOutcome
  rw [hok, hconn]
  simp [hw]

/-- A successful tool execution whose stream write throws: full response
inline, nothing recorded on the stream. -/
theorem toolsCallOutcome_ok_writeFails (reg : Registry) (store : Store) (cid : Option Str)
    (conn : Connection) (mid : Option JVal) (params : RpcParams) (wantsSSE : Bool)
    (fresh : Str) (result : ToolResult) (store1 : Store) (e : Str)
    (hconn : lookupConn reg cid = some conn) (hw : conn.writableEnded = false)
    (hok : runTool fresh store (jsStr params.name) params.arguments = .ok (result, store1)) :
    toolsCallOutcome reg store cid mid params wantsSSE fresh (some e) =
      { inline := .fullJson (toolResponse result mid), sseWrites := [],
        store := store1, registry := reg } := by
  unfold toolsCallOutcome
  rw [hok, hconn]
  simp [hw]

/-- A successful tool execution over an ended stream: no write attempted,
full response inline. -/
theorem toolsCallOutcome_ok_ended (reg : Registry) (store : Store) (cid : Option Str)
    (conn : Connection) (mid : Option JVal) (params : RpcParams) (wantsSSE : Bool)
    (fresh : Str) (sseFail : Option Str) (result : ToolResult) (store1 : Store)
    (hconn : lookupConn reg cid = some conn) (hw : conn.writableEnded = true)
    (hok : runTool fresh store (jsStr params.name) params.arguments = .ok (result, store1)) :
    toolsCallOutcome reg store cid mid params wantsSSE fresh sseFail =
      { inline := .fullJson (toolResponse result mid), sseWrites := [],
        store := store1, registry := reg } := by
  unfold toolsCallOutcome
  rw [hok, hconn]
  simp [hw]

/-- After `mcpConnections.delete(i)`, looking up `i` finds nothing. -/
theorem lookupConn_removeConn (reg : Registry) (i : Str) :
    lookupConn (removeConn reg i) (some i) = none := by
  have h : List.find? (fun p => p.1 == i) (removeConn reg i) = none := by
    rw [List.find?_eq_none]
    intro x hx
    have hmem := List.mem_filter.mp hx
    simpa using hmem.2
  show (match List.find? (fun p => p.1 == i) (removeConn reg i) with
        | some p => some p.2
        | none => none) = none
  rw [h]

/-! ## Claim C3 -/

/-- Claim C3 as stated is false: a `tools/call` that produces an
`isError: true` Tool Result (here: unknown tool `bogus_tool`) is never
offered to the original SSE stream, even though the registered stream is
present and writable — the full JSON-RPC response goes inline on the POST and
no acknowledgment is sent. -/
theorem toolscall_sse_first_counterexample :
    lookupConn liveReg (some "c1".data) = some liveConn
    ∧ liveConn.writableEnded = false
    ∧ (handleMessage liveReg [] (some "c1".data)
        { method := some "tools/call".data, id := some (.num 1),
          params := some { name := some "bogus_tool".data } } none "f".data none).sseWrites = []
    ∧ (handleMessage liveReg [] (some "c1".data)
        { method := some "tools/call".data, id := some (.num 1),
          params := some { name := some "bogus_tool".data } } none "f".data none).inline
      = .fullJson (toolResponse (toolFault "Unknown tool: bogus_tool".data) (some (.num 1)))
    ∧ (handleMessage liveReg [] (some "c1".data)
        { method := some "tools/call".data, id := some (.num 1),
          params := some { name := some "bogus_tool".data } } none "f".data none).inline
      ≠ .ackJson := by
  decide

/-- Claim C3 amended: for every `tools/call` whose tool executes
successfully (the `switch` returns a result instead of throwing), delivery is
attempted on the original SSE stream first — when the registered stream is
present, not ended, and the write succeeds, the POST is answered with the
`{ acknowledged: true }` confirmation and the payload goes on the stream;
when the stream has ended or the write throws, the full JSON-RPC response is
returned inline on the POST instead. (Error results bypass the stream
entirely; see the counterexample.) -/
theorem toolscall_sse_first_amended (reg : Registry) (store : Store) (cid : Option Str)
    (conn : Connection) (mid : Option JVal) (params : RpcParams) (accept : Option Str)
    (fresh : Str) (result : ToolResult) (store1 : Store)
    (hconn : lookupConn reg cid = some conn)
    (hok : runTool fresh store (jsStr params.name) params.arguments = .ok (result, store1)) :
    (conn.writableEnded = false →
      handleMessage reg store cid { method := some "tools/call".data, id := mid, params := some params }
          accept fresh none =
        { inline := .ackJson, sseWrites := [toolResponse result mid],
          store := store1, registry := reg })
    ∧ (∀ e, conn.writableEnded = false →
      handleMessage reg store cid { method := some "tools/call".data, id := mid, params := some params }
          accept fresh (some e) =
        { inline := .fullJson (toolResponse result mid), sseWrites := [],
          store := store1, registry := reg })
    ∧ (∀ sseFail, conn.writableEnded = true →
      handleMessage reg store cid { method := some "tools/call".data, id := mid, params := some params }
          accept fresh sseFail =
        { inline := .fullJson (toolResponse result mid), sseWrites := [],
          store := store1, registry := reg }) := by
  refine ⟨?_, ?_, ?_⟩
  · intro hw
    rw [handleMessage_toolsCall reg store cid conn mid params accept fresh none hconn]
    exact toolsCallOutcome_ok_live reg store cid conn mid params _ fresh result store1 hconn hw hok
  · intro e hw
    rw [handleMessage_toolsCall reg store cid conn mid params accept fresh (some e) hconn]
    exact toolsCallOutcome_ok_writeFails reg store cid conn mid params _ fresh result store1 e hconn hw hok
  · intro sseFail hw
    rw [handleMessage_toolsCall reg store cid conn mid params accept fresh sseFail hconn]
    exact toolsCallOutcome_ok_ended reg store cid conn mid params _ fresh sseFail result store1 hconn hw hok

/-- Concrete instance of `toolscall_sse_first_amended`: `create_session`
over a live connection is acknowledged inline with the payload on the
stream; the same call over an ended stream falls back to inline JSON. -/
theorem toolscall_sse_first_amended_witness :
    lookupConn liveReg (some "c1".data) = some liveConn ∧
    liveConn.writableEnded = false ∧
    handleMessage liveReg [] (some "c1".data)
        { method := some "tools/call".data, id := some (.num 2),
          params := some { name := some "create_session".data } } none "s1".data none =
      { inline := .ackJson,
        sseWrites := [toolResponse (okResult (.sessionCreated "s1".data)) (some (.num 2))],
        store := [("s1".data, { docs := [], history := [] })], registry := liveReg } ∧
    handleMessage endedReg [] (some "c1".data)
        { method := some "tools/call".data, id := some (.num 2),
          params := some { name := some "create_session".data } } none "s1".data none =
      { inline := .fullJson (toolResponse (okResult (.sessionCreated "s1".data)) (some (.num 2))),
        sseWrites := [],
        store := [("s1".data, { docs := [], history := [] })], registry := endedReg } :=
  ⟨by decide, rfl,
   (toolscall_sse_first_amended liveReg [] (some "c1".data) liveConn (some (.num 2))
      { name := some "create_session".data } none "s1".data
      (okResult (.sessionCreated "s1".data)) [("s1".data, { docs := [], history := [] })]
      (by decide) rfl).1 rfl,
   (toolscall_sse_first_amended endedReg [] (some "c1".data) endedConn (some (.num 2))
      { name := some "create_session".data } none "s1".data
      (okResult (.sessionCreated "s1".data)) [("s1".data, { docs := [], history := [] })]
      (by decide) rfl).2.2 none rfl⟩

/-! ## Claim C4 -/

/-- Claim C4 as stated is false: the recurring keep-alive task does not
check liveness before writing. Here the connection has been removed by the
close handler (the registry is empty) and its stream is dead (the write
throws), yet the tick still attempts the write — the failure is only caught
afterwards, cancelling the interval. -/
theorem keepalive_check_then_write_counterexample :
    (onStreamClose liveReg "c1".data).registry = []
    ∧ (keepAliveTick (onStreamClose liveReg "c1".data).registry true).writeAttempted = true
    ∧ (keepAliveTick (onStreamClose liveReg "c1".data).registry true).intervalCancelled = true := by
  decide

/-- Claim C4 amended: the keep-alive timer is cancelled by the close/error
handlers together with registry removal, so it stops firing once removal is
observed; but the writers are not uniformly check-then-write: the keep-alive
attempts its write unconditionally (whatever the registry or stream state)
and relies on catching the failure, and only the `tools/call` success path
checks `writableEnded` before writing — over an ended stream it skips the
stream write and answers inline. -/
theorem write_liveness_discipline (reg : Registry) (t : Bool) (i : Str) :
    ((keepAliveTick reg t).writeAttempted = true
      ∧ (keepAliveTick reg t).intervalCancelled = t
      ∧ (keepAliveTick reg t).registry = reg)
    ∧ ((onStreamClose reg i).intervalCancelled = true
      ∧ lookupConn (onStreamClose reg i).registry (some i) = none)
    ∧ (∀ (store : Store) (cid : Option Str) (conn : Connection) (mid : Option JVal)
        (params : RpcParams) (accept : Option Str) (fresh : Str) (sseFail : Option Str)
        (result : ToolResult) (store1 : Store),
        lookupConn reg cid = some conn → conn.writableEnded = true →
        runTool fresh store (jsStr params.name) params.arguments = .ok (result, store1) →
        (handleMessage reg store cid
            { method := some "tools/call".data, id := mid, params := some params }
            accept fresh sseFail).sseWrites = []) := by
  refine ⟨⟨rfl, rfl, rfl⟩, ⟨rfl, lookupConn_removeConn reg i⟩, ?_⟩
  intro store cid conn mid params accept fresh sseFail result store1 hconn hw hok
  rw [handleMessage_toolsCall reg store cid conn mid params accept fresh sseFail hconn]
  rw [toolsCallOutcome_ok_ended reg store cid conn mid params _ fresh sseFail result store1 hconn hw hok]

/-- Concrete instance of `write_liveness_discipline`: one live registry, a
throwing write, and a `create_session` call over an ended stream. -/
theorem write_liveness_discipline_witness :
    ((keepAliveTick liveReg true).writeAttempted = true
      ∧ (keepAliveTick liveReg true).intervalCancelled = true
      ∧ (keepAliveTick liveReg true).registry = liveReg)
    ∧ ((onStreamClose liveReg "c1".data).intervalCancelled = true
      ∧ lookupConn (onStreamClose liveReg "c1".data).registry (some "c1".data) = none)
    ∧ lookupConn endedReg (some "c1".data) = some endedConn
    ∧ endedConn.writableEnded = true
    ∧ (handleMessage endedReg [] (some "c1".data)
        { method := some "tools/call".data, id := some (.num 4),
          params := some { name := some "create_session".data } }
        none "s1".data none).sseWrites = [] :=
  ⟨(write_liveness_discipline liveReg true "c1".data).1,
   (write_liveness_discipline liveReg true "c1".data).2.1,
   by decide, rfl,
   (write_liveness_discipline endedReg true "c1".data).2.2 [] (some "c1".data) endedConn
     (some (.num 4)) { name := some "create_session".data } none "s1".data none
     (okResult (.sessionCreated "s1".data)) [("s1".data, { docs := [], history := [] })]
     (by decide) rfl rfl⟩

/-! ## Claim C5 -/

/-- Claim C5 as stated is false: a failing write does not trigger registry
removal. A keep-alive write failure only cancels the interval — the
connection stays registered — and a `tools/call` SSE write failure neither
cancels the schedule nor removes the connection: the handler just falls back
to the inline response and leaves the registry untouched. -/
theorem write_failure_cleanup_counterexample :
    (keepAliveTick liveReg true).intervalCancelled = true
    ∧ (keepAliveTick liveReg true).registry = liveReg
    ∧ lookupConn (keepAliveTick liveReg true).registry (some "c1".data) = some liveConn
    ∧ (handleMessage liveReg [] (some "c1".data)
        { method := some "tools/call".data, id := some (.num 5),
          params := some { name := some "create_session".data } }
        none "s1".data (some "write EPIPE".data)).registry = liveReg
    ∧ lookupConn (handleMessage liveReg [] (some "c1".data)
        { method := some "tools/call".data, id := some (.num 5),
          params := some { name := some "create_session".data } }
        none "s1".data (some "write EPIPE".data)).registry (some "c1".data) = some liveConn := by
  decide

/-- Claim C5 amended: on a keep-alive write failure only the keep-alive
schedule is cancelled — the connection is not removed from the registry; on
a `tools/call` SSE write failure neither effect occurs and the response
falls back inline; cancellation and removal happen together only in the
close/error handlers. -/
theorem write_failure_cleanup_amended (reg : Registry) (i : Str) :
    ((keepAliveTick reg true).intervalCancelled = true
      ∧ (keepAliveTick reg true).registry = reg)
    ∧ (∀ (store : Store) (cid : Option Str) (conn : Connection) (mid : Option JVal)
        (params : RpcParams) (accept : Option Str) (fresh : Str) (e : Str)
        (result : ToolResult) (store1 : Store),
        lookupConn reg cid = some conn → conn.writableEnded = false →
        runTool fresh store (jsStr params.name) params.arguments = .ok (result, store1) →
        handleMessage reg store cid
            { method := some "tools/call".data, id := mid, params := some params }
            accept fresh (some e) =
          { inline := .fullJson (toolResponse result mid), sseWrites := [],
            store := store1, registry := reg })
    ∧ ((onStreamClose reg i).intervalCancelled = true
      ∧ lookupConn (onStreamClose reg i).registry (some i) = none) := by
  refine ⟨⟨rfl, rfl⟩, ?_, ⟨rfl, lookupConn_removeConn reg i⟩⟩
  intro store cid conn mid params accept fresh e result store1 hconn hw hok
  rw [handleMessage_toolsCall reg store cid conn mid params accept fresh (some e) hconn]
  exact toolsCallOutcome_ok_writeFails reg store cid conn mid params _ fresh result store1 e hconn hw hok

/-- Concrete instance of `write_failure_cleanup_amended`: a failing
`create_session` stream write over the live registry. -/
theorem write_failure_cleanup_amended_witness :
    lookupConn liveReg (some "c1".data) = some liveConn
    ∧ liveConn.writableEnded = false
    ∧ handleMessage liveReg [] (some "c1".data)
        { method := some "tools/call".data, id := some (.num 6),
          params := some { name := some "create_session".data } }
        none "s1".data (some "write EPIPE".data) =
      { inline := .fullJson (toolResponse (okResult (.sessionCreated "s1".data)) (some (.num 6))),
        sseWrites := [],
        store := [("s1".data, { docs := [], history := [] })], registry := liveReg } :=
  ⟨by decide, rfl,
   (write_failure_cleanup_amended liveReg "c1".data).2.1 [] (some "c1".data) liveConn
     (some (.num 6)) { name := some "create_session".data } none "s1".data "write EPIPE".data
     (okResult (.sessionCreated "s1".data)) [("s1".data, { docs := [], history := [] })]
     (by decide) rfl rfl⟩

/-! ## Claim C6 -/

/-- Claim C6: every response to an `initialize` or `tools/list` request on a
resolved connection (with a working stream) is unconditionally written to
that connection's SSE stream, and is additionally returned inline as the
full JSON-RPC response exactly when the POST did not declare acceptance of
`text/event-stream`; a streaming-accepting client receives the 202-style
acknowledgment instead. The `initialize` result carries a `protocolVersion`
and echoes the request's `id` verbatim. -/
theorem init_toolslist_delivery (reg : Registry) (store : Store) (cid : Option Str)
    (conn : Connection) (msg : RpcMessage) (accept : Option Str) (fresh : Str)
    (hconn : lookupConn reg cid = some conn) :
    (msg.method = some "initialize".data →
      handleMessage reg store cid msg accept fresh none =
        { inline := if jsIncludes (jsOrEmpty accept) "text/event-stream".data
                    then .accepted else .fullJson (initResponse msg.id),
          sseWrites := [initResponse msg.id], store := store, registry := reg })
    ∧ (msg.method = some "tools/list".data →
      handleMessage reg store cid msg accept fresh none =
        { inline := if jsIncludes (jsOrEmpty accept) "text/event-stream".data
                    then .accepted else .fullJson (toolsListResponse msg.id),
          sseWrites := [toolsListResponse msg.id], store := store, registry := reg })
    ∧ (initResponse msg.id).id = msg.id
    ∧ (initResponse msg.id).result
        = some (.initResult "2024-11-05".data "ai-foundry-mcp-gateway".data "1.0.0".data)
    ∧ (toolsListResponse msg.id).id = msg.id := by
  refine ⟨?_, ?_, rfl, rfl, rfl⟩
  · intro h
    unfold handleMessage
    rw [hconn, h]
    rfl
  · intro h
    unfold handleMessage
    rw [hconn, h]
    rfl

/-- Concrete instance of `init_toolslist_delivery`: `initialize` from a
plain-JSON client (full response inline and on the stream), `initialize`
from a streaming client (202-style acknowledgment), and `tools/list` from a
plain-JSON client. -/
theorem init_toolslist_delivery_witness :
    lookupConn liveReg (some "c1".data) = some liveConn
    ∧ handleMessage liveReg [] (some "c1".data)
        { method := some "initialize".data, id := some (.num 1) } none "f".data none =
      { inline := if jsIncludes (jsOrEmpty none) "text/event-stream".data
                  then .accepted else .fullJson (initResponse (some (.num 1))),
        sseWrites := [initResponse (some (.num 1))], store := [], registry := liveReg }
    ∧ handleMessage liveReg [] (some "c1".data)
        { method := some "initialize".data, id := some (.num 1) }
        (some "text/event-stream".data) "f".data none =
      { inline := if jsIncludes (jsOrEmpty (some "text/event-stream".data)) "text/event-stream".data
                  then .accepted else .fullJson (initResponse (some (.num 1))),
        sseWrites := [initResponse (some (.num 1))], store := [], registry := liveReg }
    ∧ handleMessage liveReg [] (some "c1".data)
        { method := some "tools/list".data, id := some (.str "t".data) } none "f".data none =
      { inline := if jsIncludes (jsOrEmpty none) "text/event-stream".data
                  then .accepted else .fullJson (toolsListResponse (some (.str "t".data))),
        sseWrites := [toolsListResponse (some (.str "t".data))], store := [], registry := liveReg } :=
  ⟨by decide,
   (init_toolslist_delivery liveReg [] (some "c1".data) liveConn
      { method := some "initialize".data, id := some (.num 1) } none "f".data (by decide)).1 rfl,
   (init_toolslist_delivery liveReg [] (some "c1".data) liveConn
      { method := some "initialize".data, id := some (.num 1) }
      (some "text/event-stream".data) "f".data (by decide)).1 rfl,
   (init_toolslist_delivery liveReg [] (some "c1".data) liveConn
      { method := some "tools/list".data, id := some (.str "t".data) } none "f".data
      (by decide)).2.1 rfl⟩

/-! ## Claim C7 -/

/-- Claim C7 as stated is false: there is no envelope-shape validation and
no dedicated malformed-envelope error code. The empty envelope `{}` (no
method, no id) on a resolved connection is handled by the unknown-method
path: the error it produces carries code `-32601` — exactly the
method-not-found code, not a code distinct from it — and the POST is
answered `{ received: true }`. -/
theorem malformed_envelope_counterexample :
    (handleMessage liveReg [] (some "c1".data) {} none "f".data none).sseWrites
      = [methodNotFoundResponse none none]
    ∧ (methodNotFoundResponse none none).error
      = some { code := methodNotFoundCode, message := "Method not found: undefined".data }
    ∧ (handleMessage liveReg [] (some "c1".data) {} none "f".data none).inline = .receivedJson
    ∧ methodNotFoundCode = -32601 := by
  decide

/-- Claim C7 amended: the gateway performs no envelope-shape validation.
An envelope with no `method` member is handled by the method-not-found path:
over a resolved connection with a working stream it yields the `-32601`
error with message `Method not found: undefined`, the client's `id` echoed
verbatim (an absent id stays absent, it is not replaced by null), pushed on
the connection's stream with a `{ received: true }` inline answer for a
non-streaming client, or written as SSE frames on the POST response itself
for a streaming client; a `tools/call` envelope lacking `params` is caught
by the outer handler as internal fault `-32603`. -/
theorem malformed_envelope_amended (reg : Registry) (store : Store) (cid : Option Str)
    (conn : Connection) (msg : RpcMessage) (accept : Option Str) (fresh : Str)
    (hconn : lookupConn reg cid = some conn)
    (hm : msg.method = none) :
    (jsIncludes (jsOrEmpty accept) "text/event-stream".data = false →
      handleMessage reg store cid msg accept fresh none =
        { inline := .receivedJson, sseWrites := [methodNotFoundResponse none msg.id],
          store := store, registry := reg })
    ∧ (jsIncludes (jsOrEmpty accept) "text/event-stream".data = true →
      handleMessage reg store cid msg accept fresh none =
        { inline := .sseOnPost (methodNotFoundResponse none msg.id), sseWrites := [],
          store := store, registry := reg })
    ∧ (∀ (mid : Option JVal) (sseFail : Option Str),
        handleMessage reg store cid
            { method := some "tools/call".data, id := mid, params := none }
            accept fresh sseFail =
          { inline := .internalError (internalErrorOf destructureFailMsg) mid,
            sseWrites := [], store := store, registry := reg })
    ∧ (methodNotFoundResponse none msg.id).error
        = some { code := methodNotFoundCode, message := "Method not found: undefined".data } := by
  refine ⟨?_, ?_, ?_, rfl⟩
  · intro hws
    unfold handleMessage
    rw [hconn, hm, hws]
    rfl
  · intro hws
    unfold handleMessage
    rw [hconn, hm, hws]
    rfl
  · intro mid sseFail
    unfold handleMessage
    rw [hconn]
    rfl

/-- Concrete instance of `malformed_envelope_amended`: the empty envelope
from a plain-JSON client and from a streaming client, and a `tools/call`
with no `params`. -/
theorem malformed_envelope_amended_witness :
    lookupConn liveReg (some "c1".data) = some liveConn
    ∧ jsIncludes (jsOrEmpty none) "text/event-stream".data = false
    ∧ handleMessage liveReg [] (some "c1".data) {} none "f".data none =
      { inline := .receivedJson, sseWrites := [methodNotFoundResponse none none],
        store := [], registry := liveReg }
    ∧ jsIncludes (jsOrEmpty (some "text/event-stream".data)) "text/event-stream".data = true
    ∧ handleMessage liveReg [] (some "c1".data) {} (some "text/event-stream".data) "f".data none =
      { inline := .sseOnPost (methodNotFoundResponse none none), sseWrites := [],
        store := [], registry := liveReg }
    ∧ handleMessage liveReg [] (some "c1".data)
        { method := some "tools/call".data, id := some (.num 9), params := none }
        none "f".data none =
      { inline := .internalError (internalErrorOf destructureFailMsg) (some (.num 9)),
        sseWrites := [], store := [], registry := liveReg } :=
  ⟨by decide, by decide,
   (malformed_envelope_amended liveReg [] (some "c1".data) liveConn {} none "f".data
      (by decide) rfl).1 (by decide),
   by decide,
   (malformed_envelope_amended liveReg [] (some "c1".data) liveConn {}
      (some "text/event-stream".data) "f".data (by decide) rfl).2.1 (by decide),
   (malformed_envelope_amended liveReg [] (some "c1".data) liveConn {} none "f".data
      (by decide) rfl).2.2.1 (some (.num 9)) none⟩

/-! ## Claim C8 -/

/-- Claim C8 as stated is false: for an unknown method on a resolved
connection, a non-streaming POST is answered `{ received: true }` — not the
full error response the delivery-policy mirror of rule 2 would require —
and for a streaming POST the error is written on the POST response itself
while nothing at all is pushed onto the connection's outbound stream. -/
theorem unknown_method_delivery_counterexample :
    (handleMessage liveReg [] (some "c1".data)
        { method := some "foo/bar".data, id := some (.num 7) } none "f".data none).inline
      = .receivedJson
    ∧ (handleMessage liveReg [] (some "c1".data)
        { method := some "foo/bar".data, id := some (.num 7) } none "f".data none).inline
      ≠ .fullJson (methodNotFoundResponse (some "foo/bar".data) (some (.num 7)))
    ∧ (handleMessage liveReg [] (some "c1".data)
        { method := some "foo/bar".data, id := some (.num 7) }
        (some "text/event-stream".data) "f".data none).sseWrites = []
    ∧ (handleMessage liveReg [] (some "c1".data)
        { method := some "foo/bar".data, id := some (.num 7) }
        (some "text/event-stream".data) "f".data none).inline
      = .sseOnPost (methodNotFoundResponse (some "foo/bar".data) (some (.num 7))) := by
  decide

/-- Claim C8 amended: a request on a resolved connection whose method is
none of `initialize`, `tools/list`, `tools/call` produces the
method-not-found error with the fixed code `-32601`, its message echoing the
method name. Delivery does not mirror rule 2: a streaming-accepting POST
gets the error as SSE frames on the POST response itself (the connection's
stream receives nothing), while a non-streaming POST has the error pushed
onto the connection's stream and receives the `{ received: true }`
acknowledgment inline rather than the full error response. -/
theorem unknown_method_delivery_amended (reg : Registry) (store : Store) (cid : Option Str)
    (conn : Connection) (msg : RpcMessage) (accept : Option Str) (fresh : Str) (m : Str)
    (hconn : lookupConn reg cid = some conn)
    (hm : msg.method = some m)
    (h1 : m ≠ "initialize".data) (h2 : m ≠ "tools/list".data) (h3 : m ≠ "tools/call".data) :
    (jsIncludes (jsOrEmpty accept) "text/event-stream".data = false →
      handleMessage reg store cid msg accept fresh none =
        { inline := .receivedJson, sseWrites := [methodNotFoundResponse (some m) msg.id],
          store := store, registry := reg })
    ∧ (jsIncludes (jsOrEmpty accept) "text/event-stream".data = true →
      handleMessage reg store cid msg accept fresh none =
        { inline := .sseOnPost (methodNotFoundResponse (some m) msg.id), sseWrites := [],
          store := store, registry := reg })
    ∧ (methodNotFoundResponse (some m) msg.id).error
        = some { code := methodNotFoundCode, message := "Method not found: ".data ++ m } := by
  have E1 : ((some m : Option Str) == some "initialize".data) = false :=
    beq_eq_false_iff_ne.mpr (by simpa using h1)
  have E2 : ((some m : Option Str) == some "tools/list".data) = false :=
    beq_eq_false_iff_ne.mpr (by simpa using h2)
  have E3 : ((some m : Option Str) == some "tools/call".data) = false :=
    beq_eq_false_iff_ne.mpr (by simpa using h3)
  refine ⟨?_, ?_, rfl⟩
  · intro hws
    unfold handleMessage
    rw [hconn, hm]
    simp only [E1, E2, E3, hws, Bool.false_eq_true, if_false]
  · intro hws
    unfold handleMessage
    rw [hconn, hm]
    simp only [E1, E2, E3, hws, Bool.false_eq_true, if_false, if_true]

/-- Concrete instance of `unknown_method_delivery_amended`: the unknown
method `foo/bar` from a plain-JSON client and from a streaming client. -/
theorem unknown_method_delivery_amended_witness :
    lookupConn liveReg (some "c1".data) = some liveConn
    ∧ ("foo/bar".data ≠ "initialize".data)
    ∧ jsIncludes (jsOrEmpty none) "text/event-stream".data = false
    ∧ handleMessage liveReg [] (some "c1".data)
        { method := some "foo/bar".data, id := some (.num 7) } none "f".data none =
      { inline := .receivedJson,
        sseWrites := [methodNotFoundResponse (some "foo/bar".data) (some (.num 7))],
        store := [], registry := liveReg }
    ∧ handleMessage liveReg [] (some "c1".data)
        { method := some "foo/bar".data, id := some (.num 7) }
        (some "text/event-stream".data) "f".data none =
      { inline := .sseOnPost (methodNotFoundResponse (some "foo/bar".data) (some (.num 7))),
        sseWrites := [], store := [], registry := liveReg }
    ∧ (methodNotFoundResponse (some "foo/bar".data) (some (.num 7))).error
        = some { code := methodNotFoundCode,
                 message := "Method not found: ".data ++ "foo/bar".data } :=
  ⟨by decide, by decide, by decide,
   (unknown_method_delivery_amended liveReg [] (some "c1".data) liveConn
      { method := some "foo/bar".data, id := some (.num 7) } none "f".data "foo/bar".data
      (by decide) rfl (by decide) (by decide) (by decide)).1 (by decide),
   (unknown_method_delivery_amended liveReg [] (some "c1".data) liveConn
      { method := some "foo/bar".data, id := some (.num 7) }
      (some "text/event-stream".data) "f".data "foo/bar".data
      (by decide) rfl (by decide) (by decide) (by decide)).2.1 (by decide),
   (unknown_method_delivery_amended liveReg [] (some "c1".data) liveConn
      { method := some "foo/bar".data, id := some (.num 7) } none "f".data "foo/bar".data
      (by decide) rfl (by decide) (by decide) (by decide)).2.2⟩

/-! ## Claim C9 -/

/-- Dropping then taking is always a contiguous slice of the original list. -/
theorem take_drop_decomp (s : Str) (m k : Nat) :
    ∃ pre post, s = pre ++ (s.drop m).take k ++ post := by
  refine ⟨s.take m, (s.drop m).drop k, ?_⟩
  rw [List.append_assoc, List.take_append_drop, List.take_append_drop]

/-- `jsSubstring` never slices out of range: its output is a contiguous
piece of the input. -/
theorem jsSubstring_decomp (s : Str) (a b : Int) :
    ∃ pre post, s = pre ++ jsSubstring s a b ++ post := by
  unfold jsSubstring
  exact take_drop_decomp s _ _

/-- The demo store holding one fresh session `sess-1` (the state after a
`create_session` that returned `sess-1`). -/
def demoStore : Store := [("sess-1".data, { docs := [], history := [] })]

/-- The store after uploading the document `hello world` into `sess-1`. -/
def demoUploadedStore : Store :=
  (callTool "doc-1".data demoStore "upload_document".data
    { sessionId := some "sess-1".data, title := some "greeting".data,
      text := some "hello world".data }).2

/-- The single search result of the demo scenario. -/
def demoResult : SearchResult :=
  { sessionId := "sess-1".data, docId := "doc-1".data, title := "greeting".data,
    snippet := "...hello world...".data }

/-- Claim C9: every `search_documents` result is built from a matching
document, its snippet the `±50`-character window of the document's text
around the first match as computed by `snippetOf`; the window is clamped to
the text's bounds — the snippet body is always a contiguous slice of the
text, never an out-of-range slice; and in the concrete scenario (upload
`hello world`, search `world`) exactly one result is returned and its
snippet contains `hello world`. -/
theorem search_snippet_clamped_scenario :
    (∀ (text searchLower : Str), ∃ mid pre post,
        snippetOf text searchLower = "...".data ++ mid ++ "...".data
        ∧ text = pre ++ mid ++ post)
    ∧ (∀ (store : Store) (q : Str) (sid : Option Str) (r : SearchResult),
        r ∈ searchDocs store q sid →
        ∃ entry, entry ∈ sessionsToSearch store sid ∧
        ∃ session, entry.2 = some session ∧
        ∃ d, d ∈ session.docs ∧ docMatches (jsToLower q) d = true
          ∧ r = { sessionId := entry.1, docId := d.id, title := d.title,
                  snippet := snippetOf d.text (jsToLower q) })
    ∧ (callTool "doc-1".data demoStore "upload_document".data
        { sessionId := some "sess-1".data, title := some "greeting".data,
          text := some "hello world".data }).1.isError = false
    ∧ (callTool "q1".data demoUploadedStore "search_documents".data
        { query := some "world".data }).1
      = okResult (.searchOutput "world".data 1 [demoResult])
    ∧ jsIncludes demoResult.snippet "hello world".data = true := by
  refine ⟨?_, ?_, by decide, by decide, by decide⟩
  · intro text searchLower
    obtain ⟨pre, post, h⟩ := jsSubstring_decomp text
      (max 0 (jsIndexOf (jsToLower text) searchLower - 50))
      (min (text.length : Int) (jsIndexOf (jsToLower text) searchLower + 50))
    exact ⟨jsSubstring text
      (max 0 (jsIndexOf (jsToLower text) searchLower - 50))
      (min (text.length : Int) (jsIndexOf (jsToLower text) searchLower + 50)),
      pre, post, rfl, h⟩
  · intro store q sid r hr
    unfold searchDocs at hr
    rw [List.mem_flatMap] at hr
    obtain ⟨entry, hentry, hr⟩ := hr
    refine ⟨entry, hentry, ?_⟩
    obtain ⟨sid1, sopt⟩ := entry
    cases sopt with
    | none => simp at hr
    | some session =>
        simp only at hr
        rw [List.mem_filterMap] at hr
        obtain ⟨d, hd, hif⟩ := hr
        by_cases hm : docMatches (jsToLower q) d = true
        · rw [if_pos hm] at hif
          exact ⟨session, rfl, d, hd, hm, (Option.some.inj hif).symm⟩
        · rw [if_neg hm] at hif
          exact absurd hif (by simp)

/-- Concrete instance of the result-membership part of
`search_snippet_clamped_scenario`, at the demo scenario's single result. -/
theorem search_snippet_clamped_scenario_witness :
    demoResult ∈ searchDocs demoUploadedStore "world".data none
    ∧ (∃ entry, entry ∈ sessionsToSearch demoUploadedStore none ∧
       ∃ session, entry.2 = some session ∧
       ∃ d, d ∈ session.docs ∧ docMatches (jsToLower "world".data) d = true
         ∧ demoResult = { sessionId := entry.1, docId := d.id, title := d.title,
                          snippet := snippetOf d.text (jsToLower "world".data) }) :=
  ⟨by decide,
   search_snippet_clamped_scenario.2.1 demoUploadedStore "world".data none demoResult
     (by decide)⟩

/-! ## Claim C10 -/

/-- A store with one session `s1` holding one document that matches the
query `x`. -/
def orphanStore : Store :=
  [("s1".data, { docs := [{ id := "d1".data, title := "t".data, text := "xyz".data }],
                 history := [] })]

/-- Claim C10 as stated is false for the empty-string session id: `""`
names no existing session, yet `search_documents` with `sessionId: ""` does
not return an empty result list — JS truthiness treats `""` like an absent
argument, so the whole store is searched and here one result comes back. -/
theorem search_unknown_session_counterexample :
    lookupStore orphanStore "".data = none
    ∧ (callTool "f".data orphanStore "search_documents".data
        { query := some "x".data, sessionId := some "".data }).1
      = okResult (.searchOutput "x".data 1
          [{ sessionId := "s1".data, docId := "d1".data, title := "t".data,
             snippet := "...xyz...".data }])
    ∧ (okResult (.searchOutput "x".data 1
          [{ sessionId := "s1".data, docId := "d1".data, title := "t".data,
             snippet := "...xyz...".data }])).isError = false := by
  decide

/-- Claim C10 amended: `search_documents` called with a NON-EMPTY
`sessionId` that names no existing session returns a successful Tool Result
(`isError: false`) with `resultCount` 0 and an empty result list, leaving
the store unchanged — unlike `list_documents`, `get_document` and
`upload_document`, which each produce an `isError: true` tool fault for the
same unknown session. (With the empty-string id, JS truthiness degrades the
call to an all-sessions search; see the counterexample.) -/
theorem search_unknown_session_amended (store : Store) (sid q fresh : Str)
    (hne : sid ≠ []) (hmiss : lookupStore store sid = none) :
    (callTool fresh store "search_documents".data
        { query := some q, sessionId := some sid })
      = (okResult (.searchOutput q 0 []), store)
    ∧ (okResult (.searchOutput q 0 [])).isError = false
    ∧ (callTool fresh store "list_documents".data { sessionId := some sid }).1
      = toolFault ("Session not found: ".data ++ sid)
    ∧ (callTool fresh store "get_document".data { sessionId := some sid }).1
      = toolFault ("Session not found: ".data ++ sid)
    ∧ (callTool fresh store "upload_document".data
        { sessionId := some sid, title := some "t".data, text := some "x".data }).1
      = toolFault "Session not found".data
    ∧ (toolFault ("Session not found: ".data ++ sid)).isError = true
    ∧ (toolFault "Session not found".data).isError = true := by
  have hempty : sid.isEmpty = false := by
    cases sid with
    | nil => exact absurd rfl hne
    | cons c t => rfl
  have hsts : sessionsToSearch store (some sid) = [(sid, lookupStore store sid)] := by
    cases sid with
    | nil => exact absurd rfl hne
    | cons c t => rfl
  have hsearch : searchDocs store q (some sid) = [] := by
    unfold searchDocs
    rw [hsts, hmiss]
    rfl
  have hrunSearch : runTool fresh store "search_documents".data
      { query := some q, sessionId := some sid }
      = .ok (okResult (.searchOutput q (searchDocs store q (some sid)).length
          (searchDocs store q (some sid))), store) := rfl
  rw [hsearch] at hrunSearch
  have hrunList : runTool fresh store "list_documents".data { sessionId := some sid }
      = .error ("Session not found: ".data ++ sid) := by
    unfold runTool
    simp only [jsStr]
    rw [hmiss]
    rfl
  have hrunGet : runTool fresh store "get_document".data { sessionId := some sid }
      = .error ("Session not found: ".data ++ sid) := by
    unfold runTool
    simp only [jsStr]
    rw [hmiss]
    rfl
  have hrunUp : runTool fresh store "upload_document".data
      { sessionId := some sid, title := some "t".data, text := some "x".data }
      = .error "Session not found".data := by
    unfold runTool
    simp only [jsStr]
    rw [hmiss]
    rfl
  refine ⟨?_, rfl, ?_, ?_, ?_, rfl, rfl⟩
  · unfold callTool
    rw [hrunSearch]
    rfl
  · unfold callTool
    rw [hrunList]
  · unfold callTool
    rw [hrunGet]
  · unfold callTool
    rw [hrunUp]

/-- Concrete instance of `search_unknown_session_amended`: the unknown
session id `ghost` against the one-session store. -/
theorem search_unknown_session_amended_witness :
    ("ghost".data ≠ ([] : Str))
    ∧ lookupStore orphanStore "ghost".data = none
    ∧ (callTool "f".data orphanStore "search_documents".data
        { query := some "x".data, sessionId := some "ghost".data })
      = (okResult (.searchOutput "x".data 0 []), orphanStore)
    ∧ (callTool "f".data orphanStore "list_documents".data
        { sessionId := some "ghost".data }).1
      = toolFault ("Session not found: ".data ++ "ghost".data)
    ∧ (callTool "f".data orphanStore "upload_document".data
        { sessionId := some "ghost".data, title := some "t".data, text := some "x".data }).1
      = toolFault "Session not found".data :=
  ⟨by decide, by decide,
   (search_unknown_session_amended orphanStore "ghost".data "x".data "f".data
      (by decide) (by decide)).1,
   (search_unknown_session_amended orphanStore "ghost".data "x".data "f".data
      (by decide) (by decide)).2.2.1,
   (search_unknown_session_amended orphanStore "ghost".data "x".data "f".data
      (by decide) (by decide)).2.2.2.2.1⟩

end AiFoundryGw

